import Mathlib

/-!
Verification of the RAG agent orchestration core.

The sources define, in Python:
  * `retrieve_node`, `generate_node`, `decide_node` (LangGraph agent nodes);
  * `ConversationalRAGChain.query` / `.stream_query` / `._add_to_history` /
    `._format_history` (conversational RAG chain).
Floats are modelled as exact rationals (`ℚ`); Python dict fields that may be
absent are modelled as `Option`; Python truthiness of strings and lists is
modelled explicitly.  External collaborators (vector store, LLM) are modelled
as function parameters; a raising call is an explicit `fault` outcome.
-/

/-- A retrieved document.  In the source a `Document` has `page_content` and a
`metadata` dict; here the two metadata keys the core reads (`score`,
`source`) are explicit optional fields. -/
structure Document where
  page_content : String
  source : Option String := none
  score : Option ℚ := none
deriving DecidableEq, Repr

/-- The agent state dict (`AgentState`).  Fields the code reads with
`state.get(key, default)` and always writes wholesale are modelled with the
default inlined (`step_count`, `max_steps`); all other optional fields are
`Option`. -/
structure AgentState where
  question : String
  retrieval_query : Option String := none
  retrieved_docs : Option (List Document) := none
  retrieval_score : Option ℚ := none
  need_more_context : Option Bool := none
  answer : Option String := none
  confidence_score : Option ℚ := none
  step_count : Nat := 0
  max_steps : Nat := 5
  error : Option String := none
  current_node : Option String := none
deriving DecidableEq, Repr

/-- Python truthiness of an optional string: `None` and `""` are falsy. -/
def truthy : Option String → Bool
  | none => false
  | some s => !(s == "")

/-- Python truthiness of an optional list: `None` and `[]` are falsy. -/
def truthyDocs : Option (List Document) → Bool
  | none => false
  | some l => !l.isEmpty

/-- Embedding of `state.get("retrieval_query") or state["question"]`: the rewritten query
when present and non-empty, else the question. -/
def effQuery (s : AgentState) : String :=
  match s.retrieval_query with
  | some q => if q == "" then s.question else q
  | none => s.question

/-- Outcome of one `vectorstore.similarity_search` call: a result list, or a
raised exception carrying a message. -/
inductive SearchResult where
  | ok (docs : List Document)
  | fault (msg : String)
deriving DecidableEq, Repr

/-- Outcome of one `llm.generate` call. -/
inductive GenResult where
  | ok (text : String)
  | fault (msg : String)
deriving DecidableEq, Repr

/-- Embedding of `retrieve_node` from the agent-node module: pick the effective query, run
the store search, optionally filter by `score_threshold`, compute
`retrieval_score` (mean of metadata scores when the first document carries
one, else a volume proxy `min(len/k, 1)`), set the result fields and bump
`step_count`; a raised store exception is converted to `state["error"]` with
`retrieved_docs=[]`, `retrieval_score=0.0`, `need_more_context=True`. -/
def retrieve_node (search : String → Nat → SearchResult) (k : Nat)
    (score_threshold : Option ℚ) (s : AgentState) : AgentState :=
  match search (effQuery s) k with
  | .fault msg =>
      { s with error := some ("检索失败: " ++ msg)
               retrieved_docs := some []
               retrieval_score := some 0
               need_more_context := some true }
  | .ok docs0 =>
      let docs : List Document :=
        match score_threshold with
        | none => docs0
        | some t => docs0.filter (fun d => t ≤ d.score.getD 1)
      let retrieval_score : ℚ :=
        match docs with
        | [] => 0
        | d :: _ =>
            if d.score.isSome then
              ((docs.map (fun x => x.score.getD 0)).sum) / (docs.length : ℚ)
            else
              min ((docs.length : ℚ) / (k : ℚ)) 1
      { s with retrieved_docs := some docs
               retrieval_score := some retrieval_score
               current_node := some "retrieve"
               step_count := s.step_count + 1
               need_more_context :=
                 some (decide (retrieval_score < (0.6 : ℚ)) || decide (docs.length < k / 2)) }

/-- The fixed no-evidence answer of `generate_node`. -/
def no_info_message : String := "抱歉，我在知识库中没有找到相关信息来回答您的问题。"

/-- The default prompt template of `create_generate_node`. -/
def default_template : String :=
  "你是一位专业的智能助手。请基于以下上下文信息回答用户问题。\n\n上下文信息：\n{context}\n\n用户问题：\n{question}\n\n要求：\n1. 仅基于上下文信息回答，确保准确性\n2. 如果上下文中没有相关信息，请明确说明\n3. 回答要完整、清晰、结构化\n\n答案："

/-- Embedding of `template.format(context=..., question=...)`. -/
def fillTemplate (t ctx q : String) : String :=
  (t.replace "{context}" ctx).replace "{question}" q

/-- Context assembly of `generate_node`: numbered fragments joined by a blank
line, numbering starting at 1. -/
def assembleContext (docs : List Document) : String :=
  String.intercalate "\n\n"
    (docs.enum.map (fun p => "[文档 " ++ toString (p.1 + 1) ++ "]\n" ++ p.2.page_content))

/-- Embedding of `generate_node` from the agent-node module: short-circuit on empty
evidence with the fixed message and confidence `0.0`, otherwise assemble the
prompt and call the LLM; on success set `answer` and the blended confidence
score and bump `step_count`; a raised LLM exception sets both `error` and a
fixed apology `answer` (and does not bump `step_count`).  Python's unordered
`set()` of sources is modelled as first-occurrence-order deduplication. -/
def generate_node (llm : String → GenResult) (prompt_template : Option String)
    (include_sources : Bool) (s : AgentState) : AgentState :=
  let template : String :=
    match prompt_template with
    | some t => if t == "" then default_template else t
    | none => default_template
  let docs := s.retrieved_docs.getD []
  if docs.isEmpty then
    { s with answer := some no_info_message
             confidence_score := some 0
             current_node := some "generate"
             step_count := s.step_count + 1 }
  else
    let prompt := fillTemplate template (assembleContext docs) s.question
    match llm prompt with
    | .fault msg =>
        { s with error := some ("生成失败: " ++ msg)
                 answer := some "抱歉，生成答案时出现错误。"
                 confidence_score := some 0 }
    | .ok answer0 =>
        let answer : String :=
          if include_sources then
            answer0 ++ "\n\n参考来源：\n" ++
              String.intercalate "\n"
                (((docs.map (fun d => d.source.getD "未知来源")).eraseDups).map
                  (fun src => "- " ++ src))
          else answer0
        let retrieval_score := s.retrieval_score.getD (0.5 : ℚ)
        let answer_length_score := min ((answer.length : ℚ) / 100) 1
        { s with answer := some answer
                 confidence_score :=
                   some (retrieval_score * (0.6 : ℚ) + answer_length_score * (0.4 : ℚ))
                 current_node := some "generate"
                 step_count := s.step_count + 1 }

/-- Embedding of `decide_node`: the routing policy, a chain of first-match rules returning
the next node's name. -/
def decide_node (s : AgentState) : String :=
  if s.max_steps ≤ s.step_count then "end"
  else if truthy s.answer then "end"
  else if truthy s.error then "end"
  else if s.retrieved_docs.isNone then "retrieve"
  else if s.need_more_context.getD false && decide (s.retrieval_score.getD 0 < (0.5 : ℚ)) then
    "rewrite_query"
  else if truthyDocs s.retrieved_docs && !(truthy s.answer) then "generate"
  else "end"

/-- Modelled from the spec: the query-rewrite step named by RoutingPolicy
rule 5 has no implementation in the sources (only the graph edge
`"rewrite_query" → "rewrite_node"` appears); per §4.3/§4.4 it rewrites the
retrieval query and, like every step, increments `step_count` exactly once
per invocation. -/
def rewrite_node (rw : String → String) (s : AgentState) : AgentState :=
  { s with retrieval_query := some (rw (effQuery s))
           current_node := some "rewrite_query"
           step_count := s.step_count + 1 }

/-- One external-collaborator oracle for a whole run: the outcome of the
`r`-th store search and of the `g`-th LLM call, and the rewriter. -/
structure Oracle where
  search : Nat → String → Nat → SearchResult
  gen : Nat → String → GenResult
  rw : String → String

/-- Modelled from the spec: the RAGOrchestrator driver loop (§4.4).  In the
repository the nodes are wired into a LangGraph graph whose driver is the
external library; the loop below applies `decide_node` before every step and
dispatches to the node it names, exactly as the conditional-edge table maps
`"retrieve"`, `"rewrite_query"`, `"generate"`, `"end"`.  Returns the final
state together with the number of step executions; `fuel` bounds the
recursion and is shown sufficient below. -/
def run_loop (o : Oracle) (k : Nat) : Nat → AgentState → Nat → Nat → AgentState × Nat
  | 0, s, _, _ => (s, 0)
  | fuel + 1, s, r, g =>
      let d := decide_node s
      if d = "end" then (s, 0)
      else if d = "retrieve" then
        let res := run_loop o k fuel (retrieve_node (o.search r) k none s) (r + 1) g
        (res.1, res.2 + 1)
      else if d = "rewrite_query" then
        let res := run_loop o k fuel (rewrite_node o.rw s) r g
        (res.1, res.2 + 1)
      else
        let res := run_loop o k fuel (generate_node (o.gen g) none false s) r (g + 1)
        (res.1, res.2 + 1)

/-- Modelled from the spec: a fresh `ConversationState` for one turn —
`step_count = 0`, all optional fields absent, the budget fixed for the
turn. -/
def init_state (question : String) (step_budget : Nat) : AgentState :=
  { question := question, max_steps := step_budget }

/-! The conversational RAG chain (`ConversationalRAGChain`). -/

/-- The fixed fallback answer of the conversational chain when retrieval
returns no documents. -/
def conv_fallback : String := "抱歉，我在知识库中没有找到相关信息。"

/-- Embedding of `_format_history`: alternating `用户:`/`助手:` lines, or the fixed
first-turn placeholder. -/
def format_history (h : List (String × String)) : String :=
  if h.isEmpty then "（这是第一轮对话）"
  else
    String.intercalate "\n"
      ((h.map (fun p => ["用户: " ++ p.1, "助手: " ++ p.2])).flatten)

/-- Embedding of `_add_to_history`: append the completed turn, then drop the oldest turn
if the history now exceeds `max_history`. -/
def add_to_history (max_history : Nat) (h : List (String × String))
    (q a : String) : List (String × String) :=
  let h' := h ++ [(q, a)]
  if max_history < h'.length then h'.drop 1 else h'

/-- Conversational context assembly: `[文档{i}]` numbered from 1, joined by a
blank line. -/
def convContext (docs : List Document) : String :=
  String.intercalate "\n\n"
    (docs.enum.map (fun p => "[文档" ++ toString (p.1 + 1) ++ "]\n" ++ p.2.page_content))

/-- Embedding of `prompt_template.format(history=..., context=..., question=...)`. -/
def fillTemplate3 (t hist ctx q : String) : String :=
  ((t.replace "{history}" hist).replace "{context}" ctx).replace "{question}" q

/-- Embedding of `ConversationalRAGChain.query`: retrieve; on empty results record and
return the fixed fallback; otherwise fill the three-slot prompt, call the
blocking LLM, record the turn, return the answer.  Result: the returned
answer and the updated `chat_history`. -/
def conv_query (store : String → Nat → List Document) (gen : String → String)
    (tmpl : String) (max_history : Nat) (hist : List (String × String))
    (question : String) (k : Nat) : String × List (String × String) :=
  let docs := store question k
  if docs.isEmpty then
    (conv_fallback, add_to_history max_history hist question conv_fallback)
  else
    let prompt := fillTemplate3 tmpl (format_history hist) (convContext docs) question
    let answer := gen prompt
    (answer, add_to_history max_history hist question answer)

/-- Embedding of `ConversationalRAGChain.stream_query`: same pipeline, but the LLM is the
streaming call; every chunk is yielded while being collected, and the turn is
recorded with the concatenation of all chunks only after the stream is fully
drained.  Result: the yielded chunks in order and the updated
`chat_history`. -/
def conv_stream_query (store : String → Nat → List Document)
    (stream_gen : String → List String) (tmpl : String) (max_history : Nat)
    (hist : List (String × String)) (question : String) (k : Nat) :
    List String × List (String × String) :=
  let docs := store question k
  if docs.isEmpty then
    ([conv_fallback], add_to_history max_history hist question conv_fallback)
  else
    let prompt := fillTemplate3 tmpl (format_history hist) (convContext docs) question
    let chunks := stream_gen prompt
    (chunks, add_to_history max_history hist question (String.join chunks))

/-! Helper lemmas about the routing policy and the driver loop. -/

lemma truthy_append (pre msg : String) (h : pre.length ≠ 0) :
    truthy (some (pre ++ msg)) = true := by
  simp only [truthy, Bool.not_eq_true', beq_eq_false_iff_ne, ne_eq]
  intro hcon
  have hlen := congrArg String.length hcon
  simp [String.length_append] at hlen
  omega

lemma decide_end_of_error (s : AgentState) (h : truthy s.error = true) :
    decide_node s = "end" := by
  simp only [decide_node]
  split_ifs with h1 h2 <;> simp_all

lemma decide_ne_end_lt (s : AgentState) (h : decide_node s ≠ "end") :
    s.step_count < s.max_steps := by
  by_contra hh
  apply h
  simp only [decide_node]
  rw [if_pos (by omega)]

lemma run_loop_end (o : Oracle) (k fuel : Nat) (s : AgentState) (r g : Nat)
    (h : decide_node s = "end") : run_loop o k fuel s r g = (s, 0) := by
  cases fuel <;> simp [run_loop, h]

/-- Every executed retrieval either increments `step_count` by exactly one
(leaving the budget untouched) or produces a state the routing policy
immediately terminates (the converted store fault). -/
lemma retrieve_progress (search : String → Nat → SearchResult) (k : Nat) (s : AgentState) :
    ((retrieve_node search k none s).step_count = s.step_count + 1 ∧
      (retrieve_node search k none s).max_steps = s.max_steps) ∨
    decide_node (retrieve_node search k none s) = "end" := by
  simp only [retrieve_node]
  split
  · next msg heq =>
      right
      apply decide_end_of_error
      exact truthy_append "检索失败: " msg (by decide)
  · next docs heq =>
      left
      exact ⟨rfl, rfl⟩

/-- Every executed generation either increments `step_count` by exactly one
or produces a state the routing policy immediately terminates (the converted
LLM fault). -/
lemma generate_progress (llm : String → GenResult) (tmpl : Option String)
    (inc : Bool) (s : AgentState) :
    ((generate_node llm tmpl inc s).step_count = s.step_count + 1 ∧
      (generate_node llm tmpl inc s).max_steps = s.max_steps) ∨
    decide_node (generate_node llm tmpl inc s) = "end" := by
  simp only [generate_node]
  by_cases hd : (s.retrieved_docs.getD []).isEmpty
  · rw [if_pos hd]
    left
    exact ⟨rfl, rfl⟩
  · rw [if_neg hd]
    split
    · next msg heq =>
        right
        apply decide_end_of_error
        exact truthy_append "生成失败: " msg (by decide)
    · next answer0 heq =>
        left
        exact ⟨rfl, rfl⟩

lemma rewrite_progress (f : String → String) (s : AgentState) :
    (rewrite_node f s).step_count = s.step_count + 1 ∧
      (rewrite_node f s).max_steps = s.max_steps :=
  ⟨rfl, rfl⟩

/-- The driver loop halts by routing decision within `max_steps - step_count`
further step executions, provided the fuel exceeds that margin. -/
lemma run_loop_halts (o : Oracle) (k : Nat) :
    ∀ fuel (s : AgentState) (r g : Nat), s.max_steps - s.step_count < fuel →
      decide_node (run_loop o k fuel s r g).1 = "end" ∧
      (run_loop o k fuel s r g).2 ≤ s.max_steps - s.step_count := by
  intro fuel
  induction fuel with
  | zero => intro s r g h; omega
  | succ n ih =>
      intro s r g h
      by_cases hd : decide_node s = "end"
      · rw [run_loop_end o k (n + 1) s r g hd]
        exact ⟨hd, Nat.zero_le _⟩
      · have hlt : s.step_count < s.max_steps := decide_ne_end_lt s hd
        have key : ∀ (s' : AgentState) (r' g' : Nat),
            ((s'.step_count = s.step_count + 1 ∧ s'.max_steps = s.max_steps) ∨
              decide_node s' = "end") →
            decide_node (run_loop o k n s' r' g').1 = "end" ∧
              (run_loop o k n s' r' g').2 + 1 ≤ s.max_steps - s.step_count := by
          intro s' r' g' hprog
          rcases hprog with ⟨h1, h2⟩ | hend
          · have hih := ih s' r' g' (by omega)
            exact ⟨hih.1, by omega⟩
          · rw [run_loop_end o k n s' r' g' hend]
            exact ⟨hend, by omega⟩
        simp only [run_loop]
        rw [if_neg hd]
        by_cases h1 : decide_node s = "retrieve"
        · rw [if_pos h1]
          exact key _ _ _ (retrieve_progress (o.search r) k s)
        · rw [if_neg h1]
          by_cases h2 : decide_node s = "rewrite_query"
          · rw [if_pos h2]
            exact key _ _ _ (Or.inl (rewrite_progress o.rw s))
          · rw [if_neg h2]
            exact key _ _ _ (generate_progress (o.gen g) none false s)

/-- Run invariant: the step counter never passes the budget, and a recorded
empty retrieval always carries `need_more_context = True` with a quality
score below the rewrite threshold. -/
def stateInv (s : AgentState) : Prop :=
  s.step_count ≤ s.max_steps ∧
    (s.retrieved_docs = some [] →
      s.need_more_context = some true ∧ s.retrieval_score.getD 0 < (0.5 : ℚ))

lemma retrieve_preserves_inv (search : String → Nat → SearchResult) (k : Nat)
    (s : AgentState) (hinv : stateInv s) (hlt : s.step_count < s.max_steps) :
    stateInv (retrieve_node search k none s) := by
  simp only [retrieve_node]
  split
  · next msg heq =>
      refine ⟨by simpa using hinv.1, ?_⟩
      intro _
      exact ⟨rfl, by norm_num⟩
  · next docs heq =>
      refine ⟨by simpa using hlt, ?_⟩
      intro hdocs
      simp only [AgentState.mk.injEq] at hdocs ⊢
      cases docs with
      | nil =>
          simp
          exact ⟨Or.inl (by norm_num), by norm_num⟩
      | cons d rest => simp at hdocs

lemma rewrite_preserves_inv (f : String → String) (s : AgentState)
    (hinv : stateInv s) (hlt : s.step_count < s.max_steps) :
    stateInv (rewrite_node f s) := by
  exact ⟨by simpa [rewrite_node] using hlt, by simpa [rewrite_node] using hinv.2⟩

lemma generate_preserves_inv (llm : String → GenResult) (tmpl : Option String)
    (inc : Bool) (s : AgentState) (hinv : stateInv s)
    (hlt : s.step_count < s.max_steps) :
    stateInv (generate_node llm tmpl inc s) := by
  simp only [generate_node]
  by_cases hd : (s.retrieved_docs.getD []).isEmpty
  · rw [if_pos hd]
    exact ⟨by simpa using hlt, by simpa using hinv.2⟩
  · rw [if_neg hd]
    split
    · next msg heq => exact ⟨hinv.1, by simpa using hinv.2⟩
    · next answer0 heq => exact ⟨by simpa using hlt, by simpa using hinv.2⟩

lemma run_loop_inv (o : Oracle) (k : Nat) :
    ∀ fuel (s : AgentState) (r g : Nat), stateInv s →
      stateInv (run_loop o k fuel s r g).1 := by
  intro fuel
  induction fuel with
  | zero => intro s r g h; exact h
  | succ n ih =>
      intro s r g h
      by_cases hd : decide_node s = "end"
      · rw [run_loop_end o k (n + 1) s r g hd]
        exact h
      · have hlt : s.step_count < s.max_steps := decide_ne_end_lt s hd
        simp only [run_loop]
        rw [if_neg hd]
        by_cases h1 : decide_node s = "retrieve"
        · rw [if_pos h1]
          exact ih _ _ _ (retrieve_preserves_inv (o.search r) k s h hlt)
        · rw [if_neg h1]
          by_cases h2 : decide_node s = "rewrite_query"
          · rw [if_pos h2]
            exact ih _ _ _ (rewrite_preserves_inv o.rw s h hlt)
          · rw [if_neg h2]
            exact ih _ _ _ (generate_preserves_inv (o.gen g) none false s h hlt)

/-- On a state satisfying the run invariant, a terminal routing decision
implies at least one of: truthy answer, truthy error, budget exhausted. -/
lemma terminal_cases (s : AgentState) (hinv : stateInv s)
    (hend : decide_node s = "end") :
    truthy s.answer = true ∨ truthy s.error = true ∨
      s.step_count = s.max_steps := by
  by_cases ha : truthy s.answer = true
  · exact Or.inl ha
  by_cases he : truthy s.error = true
  · exact Or.inr (Or.inl he)
  by_cases hs : s.step_count = s.max_steps
  · exact Or.inr (Or.inr hs)
  exfalso
  have hstep : ¬ s.max_steps ≤ s.step_count := by
    have := hinv.1
    omega
  simp only [decide_node, if_neg hstep, ha, he, if_neg, Bool.false_eq_true,
    if_false] at hend
  rcases hdocs : s.retrieved_docs with _ | l
  · simp [hdocs] at hend
  · simp only [hdocs, Option.isNone_some, Bool.false_eq_true, if_false] at hend
    cases l with
    | nil =>
        obtain ⟨hneed, hscore⟩ := hinv.2 hdocs
        simp [hneed, hscore] at hend
    | cons d rest =>
        by_cases hrw : s.need_more_context.getD false = true ∧
            s.retrieval_score.getD 0 < (0.5 : ℚ)
        · obtain ⟨h1, h2⟩ := hrw
          simp [h1, h2] at hend
        · simp only [Bool.and_eq_true, decide_eq_true_eq] at hend
          rw [if_neg hrw] at hend
          simp [truthyDocs] at hend

lemma run_loop_succ_retrieve (o : Oracle) (k fuel : Nat) (s : AgentState) (r g : Nat)
    (h : decide_node s = "retrieve") :
    run_loop o k (fuel + 1) s r g =
      ((run_loop o k fuel (retrieve_node (o.search r) k none s) (r + 1) g).1,
       (run_loop o k fuel (retrieve_node (o.search r) k none s) (r + 1) g).2 + 1) := by
  simp only [run_loop, h]
  rw [if_neg (by decide : ¬("retrieve" : String) = "end")]
  simp

lemma run_loop_succ_generate (o : Oracle) (k fuel : Nat) (s : AgentState) (r g : Nat)
    (h : decide_node s = "generate") :
    run_loop o k (fuel + 1) s r g =
      ((run_loop o k fuel (generate_node (o.gen g) none false s) r (g + 1)).1,
       (run_loop o k fuel (generate_node (o.gen g) none false s) r (g + 1)).2 + 1) := by
  simp only [run_loop, h]
  rw [if_neg (by decide : ¬("generate" : String) = "end"),
    if_neg (by decide : ¬("generate" : String) = "retrieve"),
    if_neg (by decide : ¬("generate" : String) = "rewrite_query")]

/-- A run that executes exactly a retrieval, then a generation, then stops:
two step executions. -/
lemma run_loop_two_steps (o : Oracle) (k fuel : Nat) (s : AgentState) (r g : Nat)
    (h0 : decide_node s = "retrieve") (s1 : AgentState)
    (hs1 : retrieve_node (o.search r) k none s = s1)
    (h1 : decide_node s1 = "generate") (s2 : AgentState)
    (hs2 : generate_node (o.gen g) none false s1 = s2)
    (h2 : decide_node s2 = "end") :
    run_loop o k (fuel + 2) s r g = (s2, 2) := by
  have e1 : run_loop o k (fuel + 1) s1 (r + 1) g = (s2, 1) := by
    rw [run_loop_succ_generate o k fuel s1 (r + 1) g h1, hs2,
      run_loop_end o k fuel s2 (r + 1) (g + 1) h2]
  show run_loop o k (fuel + 1 + 1) s r g = (s2, 2)
  rw [run_loop_succ_retrieve o k (fuel + 1) s r g h0, hs1, e1]

/-- A store stub returning four fully-scored documents and an LLM stub that
always raises. -/
def faultDocs : List Document :=
  [{ page_content := "d1", score := some 0.9 },
   { page_content := "d2", score := some 0.9 },
   { page_content := "d3", score := some 0.9 },
   { page_content := "d4", score := some 0.9 }]

def faultingOracle : Oracle where
  search := fun _ _ _ => .ok faultDocs
  gen := fun _ _ => .fault "boom"
  rw := id

/-- The state after the retrieval step of the counterexample run. -/
def s1fault : AgentState :=
  { question := "q", retrieved_docs := some faultDocs,
    retrieval_score := some (9 / 10), need_more_context := some false,
    step_count := 1, max_steps := 5, current_node := some "retrieve" }

/-- The state after the failing generation step of the counterexample run. -/
def s2fault : AgentState :=
  { s1fault with answer := some "抱歉，生成答案时出现错误。",
                 error := some "生成失败: boom", confidence_score := some 0 }

/-- A store stub returning no documents and an LLM stub answering "hi". -/
def emptyStoreOracle : Oracle where
  search := fun _ _ _ => .ok []
  gen := fun _ _ => .ok "hi"
  rw := id

/-- C1 counterexample: with a store returning well-scored evidence and an LLM
that raises, the turn terminates with BOTH `answer` (the fixed apology set by
`generate_node`'s exception handler) and `error` present, and `step_count`
(1) strictly below `max_steps` (5) — so "exactly one of the three terminal
conditions" is violated: two of them hold at once. -/
theorem terminal_fields_not_mutually_exclusive :
    (run_loop faultingOracle 4 6 (init_state "q" 5) 0 0).1.answer
        = some "抱歉，生成答案时出现错误。" ∧
    (run_loop faultingOracle 4 6 (init_state "q" 5) 0 0).1.error
        = some "生成失败: boom" ∧
    (run_loop faultingOracle 4 6 (init_state "q" 5) 0 0).1.step_count = 1 ∧
    (run_loop faultingOracle 4 6 (init_state "q" 5) 0 0).1.max_steps = 5 := by
  have hd0 : decide_node (init_state "q" 5) = "retrieve" := by
    norm_num [decide_node, init_state, truthy]
  have hs1 : retrieve_node (faultingOracle.search 0) 4 none (init_state "q" 5) = s1fault := by
    norm_num [retrieve_node, faultingOracle, effQuery, init_state, faultDocs, s1fault,
      List.sum_cons, List.sum_nil]
  have hd1 : decide_node s1fault = "generate" := by
    norm_num [decide_node, s1fault, truthy, truthyDocs, faultDocs]
  have hs2 : generate_node (faultingOracle.gen 0) none false s1fault = s2fault := by
    norm_num [generate_node, faultingOracle, s1fault, s2fault, faultDocs]
    decide
  have hd2 : decide_node s2fault = "end" := by decide
  have hrun : run_loop faultingOracle 4 6 (init_state "q" 5) 0 0 = (s2fault, 2) :=
    run_loop_two_steps faultingOracle 4 4 (init_state "q" 5) 0 0 hd0 _ hs1 hd1 _ hs2 hd2
  rw [hrun]
  norm_num [s2fault, s1fault]

/-- C1 (amended): at termination of a turn started from a fresh state, at
least one of the three terminal conditions holds — a (truthy) answer, a
(truthy) error, or an exhausted step budget; they are not mutually exclusive,
since a failed generation step sets both `answer` and `error`. -/
theorem run_loop_terminal_at_least_one (o : Oracle) (k : Nat) (q : String) (B : Nat) :
    truthy (run_loop o k (B + 1) (init_state q B) 0 0).1.answer = true ∨
    truthy (run_loop o k (B + 1) (init_state q B) 0 0).1.error = true ∨
    (run_loop o k (B + 1) (init_state q B) 0 0).1.step_count =
      (run_loop o k (B + 1) (init_state q B) 0 0).1.max_steps := by
  have hinv0 : stateInv (init_state q B) := by
    constructor
    · simp [init_state]
    · intro h
      simp [init_state] at h
  have hfuel : (init_state q B).max_steps - (init_state q B).step_count < B + 1 := by
    simp [init_state]
  exact terminal_cases _ (run_loop_inv o k (B + 1) (init_state q B) 0 0 hinv0)
    ((run_loop_halts o k (B + 1) (init_state q B) 0 0 hfuel).1)

/-- C2: for every step budget `B ≥ 1` and every sequence of store/LLM
outcomes, the driver loop started on a fresh state performs at most `B` step
executions and halts by routing decision (fuel `B + 1` already suffices: the
final state's routing decision is END). -/
theorem run_loop_bounded_by_budget (o : Oracle) (k : Nat) (q : String) (B : Nat)
    (hB : 1 ≤ B) :
    (run_loop o k (B + 1) (init_state q B) 0 0).2 ≤ B ∧
    decide_node (run_loop o k (B + 1) (init_state q B) 0 0).1 = "end" := by
  have h := run_loop_halts o k (B + 1) (init_state q B) 0 0 (by simp [init_state])
  exact ⟨by simpa [init_state] using h.2, h.1⟩

/-- C2 witness: the bound instantiated at budget 1 with a concrete oracle. -/
theorem run_loop_bounded_by_budget_witness :
    (run_loop emptyStoreOracle 4 2 (init_state "q" 1) 0 0).2 ≤ 1 ∧
    decide_node (run_loop emptyStoreOracle 4 2 (init_state "q" 1) 0 0).1 = "end" :=
  run_loop_bounded_by_budget emptyStoreOracle 4 "q" 1 (by decide)

/-- C3 counterexample: a single document scoring 0.9 with `k = 4` yields
`need_more_context = True` although `retrieval_score < 0.6` is false — the
flag is NOT characterised by the threshold comparison alone, because the code
also checks the document count against `k // 2`. -/
theorem need_more_context_not_threshold_only :
    (retrieve_node (fun _ _ => .ok [{ page_content := "d", score := some 0.9 }]) 4 none
        (init_state "q" 5)).need_more_context = some true ∧
    (retrieve_node (fun _ _ => .ok [{ page_content := "d", score := some 0.9 }]) 4 none
        (init_state "q" 5)).retrieval_score = some 0.9 ∧
    ¬((0.9 : ℚ) < 0.6) := by
  refine ⟨?_, ?_, by norm_num⟩ <;>
    norm_num [retrieve_node, effQuery, init_state]

/-- C3 (amended): after a successful retrieval the flag equals
`retrieval_score < 0.6 OR len(docs) < k // 2` (and after a store fault it is
always `True`) — not the threshold comparison alone. -/
theorem need_more_context_formula (s : AgentState) (k : Nat) (docs : List Document)
    (msg : String) :
    (retrieve_node (fun _ _ => .ok docs) k none s).need_more_context
      = some (decide
            ((retrieve_node (fun _ _ => .ok docs) k none s).retrieval_score.getD 0
              < (0.6 : ℚ)) ||
          decide (docs.length < k / 2)) ∧
    (retrieve_node (fun _ _ => .fault msg) k none s).need_more_context = some true :=
  ⟨rfl, rfl⟩

/-- C4 counterexample: a non-terminal state with evidence present,
`need_more_context = True` and `retrieval_score = 0.55` is routed to
GENERATE, not REWRITE — the rewrite branch additionally requires
`retrieval_score < 0.5`. -/
theorem decide_node_needs_more_not_rewrite :
    decide_node
        { question := "q", retrieved_docs := some [{ page_content := "d" }],
          need_more_context := some true, retrieval_score := some 0.55,
          step_count := 1, max_steps := 5 } = "generate" := by
  norm_num [decide_node, truthy, truthyDocs]

/-- C4 (amended): in a non-terminal state with evidence present and
`need_more_context = True`, the routing policy returns REWRITE exactly when
additionally the retrieval score (defaulting to 0) is strictly below 0.5. -/
theorem decide_node_rewrite_when_low_score (s : AgentState)
    (h1 : s.step_count < s.max_steps) (h2 : truthy s.answer = false)
    (h3 : truthy s.error = false) (h4 : s.retrieved_docs.isSome = true)
    (h5 : s.need_more_context = some true)
    (h6 : s.retrieval_score.getD 0 < (0.5 : ℚ)) :
    decide_node s = "rewrite_query" := by
  have h4' : s.retrieved_docs.isNone = false := by
    cases hd : s.retrieved_docs <;> simp_all
  simp [decide_node, h2, h3, h4', h5, h6, Nat.not_le.mpr h1]

/-- C4 witness: the amended rewrite rule at a concrete low-score state. -/
theorem decide_node_rewrite_when_low_score_witness :
    decide_node
        { question := "q", retrieved_docs := some [],
          need_more_context := some true, retrieval_score := some 0.4,
          step_count := 1, max_steps := 5 } = "rewrite_query" :=
  decide_node_rewrite_when_low_score _ (by norm_num) rfl rfl rfl rfl (by norm_num)

/-- The four scored fragments of the spec's scoring example. -/
def scoredDocs : List Document :=
  [{ page_content := "a", score := some 0.9 }, { page_content := "b", score := some 0.7 },
   { page_content := "c", score := some 0.5 }, { page_content := "d", score := some 0.3 }]

/-- C5: the retrieval-quality score is 0 for an empty result, the arithmetic
mean of the fragment scores when the fragments carry scores, and the volume
proxy `min(len(docs)/k, 1)` when they carry none; on the spec's examples it
is 0.6 for scores `[0.9, 0.7, 0.5, 0.3]` with `k = 4`, and 0.5 for two
unscored fragments with `k = 4`. -/
theorem retrieval_scoring_spec :
    (∀ (s : AgentState) (k : Nat),
        (retrieve_node (fun _ _ => .ok []) k none s).retrieval_score = some 0) ∧
    (∀ (s : AgentState) (k : Nat) (docs : List Document), docs ≠ [] →
        (∀ d ∈ docs, d.score.isSome = true) →
        (retrieve_node (fun _ _ => .ok docs) k none s).retrieval_score
          = some ((docs.map (fun d => d.score.getD 0)).sum / (docs.length : ℚ))) ∧
    (∀ (s : AgentState) (k : Nat) (docs : List Document), docs ≠ [] →
        (∀ d ∈ docs, d.score = none) →
        (retrieve_node (fun _ _ => .ok docs) k none s).retrieval_score
          = some (min ((docs.length : ℚ) / (k : ℚ)) 1)) ∧
    (retrieve_node (fun _ _ => .ok scoredDocs) 4 none (init_state "q" 5)).retrieval_score
      = some 0.6 ∧
    (retrieve_node (fun _ _ => .ok [{ page_content := "a" }, { page_content := "b" }]) 4 none
        (init_state "q" 5)).retrieval_score = some 0.5 := by
  refine ⟨fun s k => rfl, ?_, ?_, ?_, ?_⟩
  · intro s k docs hne hall
    cases docs with
    | nil => exact absurd rfl hne
    | cons d rest =>
        have hd : d.score.isSome = true := hall d (List.mem_cons_self d rest)
        simp [retrieve_node, hd]
  · intro s k docs hne hall
    cases docs with
    | nil => exact absurd rfl hne
    | cons d rest =>
        have hd : d.score = none := hall d (List.mem_cons_self d rest)
        simp [retrieve_node, hd]
  · norm_num [retrieve_node, scoredDocs, effQuery, init_state, List.sum_cons, List.sum_nil]
  · norm_num [retrieve_node, effQuery, init_state]

/-- C5 witness: the mean-of-scores case applied to the spec's four scored
fragments. -/
theorem retrieval_scoring_spec_witness :
    (scoredDocs ≠ [] ∧ ∀ d ∈ scoredDocs, d.score.isSome = true) ∧
    (retrieve_node (fun _ _ => .ok scoredDocs) 4 none (init_state "q" 5)).retrieval_score
      = some ((scoredDocs.map (fun d => d.score.getD 0)).sum / (scoredDocs.length : ℚ)) :=
  ⟨⟨by decide, by decide⟩,
    retrieval_scoring_spec.2.1 (init_state "q" 5) 4 scoredDocs (by decide) (by decide)⟩

/-- C6: on a state whose retrieved evidence is present but empty, the
generation step short-circuits to the fixed no-information answer with
confidence 0, and the result does not depend on the language model — no LLM
call is made. -/
theorem generate_empty_evidence_short_circuit (llm llm' : String → GenResult)
    (tmpl : Option String) (inc : Bool) (s : AgentState)
    (h : s.retrieved_docs = some []) :
    (generate_node llm tmpl inc s).answer = some no_info_message ∧
    (generate_node llm tmpl inc s).confidence_score = some 0 ∧
    generate_node llm tmpl inc s = generate_node llm' tmpl inc s := by
  simp [generate_node, h]

/-- C6 witness: the short-circuit at a concrete empty-evidence state, with
two observably different LLM stubs. -/
theorem generate_empty_evidence_short_circuit_witness :
    (generate_node (fun _ => .ok "X") none false
        { question := "q", retrieved_docs := some [] }).answer = some no_info_message ∧
    (generate_node (fun _ => .ok "X") none false
        { question := "q", retrieved_docs := some [] }).confidence_score = some 0 ∧
    generate_node (fun _ => .ok "X") none false
        { question := "q", retrieved_docs := some [] }
      = generate_node (fun _ => .fault "down") none false
        { question := "q", retrieved_docs := some [] } :=
  generate_empty_evidence_short_circuit _ _ none false _ rfl

/-- C7: the conversation history never exceeds its capacity after an append
(given it did not before), and eviction is FIFO — four appends at capacity 3
retain exactly the last three turns in order. -/
theorem memory_fifo_bounded :
    (∀ (cap : Nat) (h : List (String × String)) (q a : String),
        h.length ≤ cap → (add_to_history cap h q a).length ≤ cap) ∧
    add_to_history 3 (add_to_history 3 (add_to_history 3 (add_to_history 3 [] "q1" "a1")
        "q2" "a2") "q3" "a3") "q4" "a4"
      = [("q2", "a2"), ("q3", "a3"), ("q4", "a4")] := by
  constructor
  · intro cap h q a hle
    simp only [add_to_history]
    split
    · simp
      omega
    · next hh =>
        simp at hh ⊢
        omega
  · decide

/-- C7 witness: the capacity bound applied at a concrete full history. -/
theorem memory_fifo_bounded_witness :
    ([("a", "b")] : List (String × String)).length ≤ 1 ∧
    (add_to_history 1 [("a", "b")] "q" "r").length ≤ 1 :=
  ⟨by decide, memory_fifo_bounded.1 1 [("a", "b")] "q" "r" (by decide)⟩

/-- C8: when the streaming stub is deterministic w.r.t. the blocking stub
(concatenating its chunks gives the blocking result for every prompt), the
conversational streaming query yields chunks whose concatenation equals the
blocking query's answer, produces the identical updated history, and the
turn recorded in history is exactly the concatenation of the full chunk
sequence. -/
theorem stream_equals_blocking (store : String → Nat → List Document)
    (gen : String → String) (stream_gen : String → List String) (tmpl : String)
    (cap : Nat) (hist : List (String × String)) (question : String) (k : Nat)
    (hdet : ∀ p, String.join (stream_gen p) = gen p) :
    String.join (conv_stream_query store stream_gen tmpl cap hist question k).1
      = (conv_query store gen tmpl cap hist question k).1 ∧
    (conv_stream_query store stream_gen tmpl cap hist question k).2
      = (conv_query store gen tmpl cap hist question k).2 ∧
    (conv_stream_query store stream_gen tmpl cap hist question k).2
      = add_to_history cap hist question
          (String.join (conv_stream_query store stream_gen tmpl cap hist question k).1) := by
  by_cases hd : (store question k).isEmpty
  · have hb : conv_query store gen tmpl cap hist question k
        = (conv_fallback, add_to_history cap hist question conv_fallback) := by
      simp [conv_query, hd]
    have hs : conv_stream_query store stream_gen tmpl cap hist question k
        = ([conv_fallback], add_to_history cap hist question conv_fallback) := by
      simp [conv_stream_query, hd]
    rw [hb, hs]
    exact ⟨rfl, rfl, rfl⟩
  · have hd' : (store question k).isEmpty = false := by simpa using hd
    simp only [conv_query, conv_stream_query, hd', Bool.false_eq_true, if_false]
    exact ⟨hdet _, by rw [hdet], trivial⟩

/-- A one-document store stub for the streaming witness. -/
def stubStore : String → Nat → List Document := fun _ _ => [{ page_content := "doc" }]

/-- C8 witness: the equivalence at concrete deterministic stubs, where the
streaming LLM yields `["A", "B"]` and the blocking LLM returns `"AB"`. -/
theorem stream_equals_blocking_witness :
    String.join (conv_stream_query stubStore (fun _ => ["A", "B"]) "T" 3 [] "q" 4).1
      = (conv_query stubStore (fun _ => "AB") "T" 3 [] "q" 4).1 ∧
    (conv_stream_query stubStore (fun _ => ["A", "B"]) "T" 3 [] "q" 4).2
      = (conv_query stubStore (fun _ => "AB") "T" 3 [] "q" 4).2 ∧
    (conv_stream_query stubStore (fun _ => ["A", "B"]) "T" 3 [] "q" 4).2
      = add_to_history 3 [] "q"
          (String.join (conv_stream_query stubStore (fun _ => ["A", "B"]) "T" 3 [] "q" 4).1) :=
  stream_equals_blocking stubStore (fun _ => "AB") (fun _ => ["A", "B"]) "T" 3 [] "q" 4
    (fun _ => rfl)

/-- C9 counterexample: with an empty question (and no rewritten query) the
retrieval node performs the store search anyway and records its result —
`error` stays absent and the retrieval fields are set, contradicting the
claimed precondition check. -/
theorem empty_query_no_precondition_check :
    (retrieve_node (fun _ _ => .ok [{ page_content := "found" }]) 4 none
        (init_state "" 5)).error = none ∧
    (retrieve_node (fun _ _ => .ok [{ page_content := "found" }]) 4 none
        (init_state "" 5)).retrieved_docs = some [{ page_content := "found" }] ∧
    (retrieve_node (fun _ _ => .ok [{ page_content := "found" }]) 4 none
        (init_state "" 5)).retrieval_score = some (1 / 4) := by
  refine ⟨rfl, rfl, ?_⟩
  norm_num [retrieve_node, effQuery, init_state]

/-- C9 (amended): the retrieval node applies no emptiness/whitespace
precondition: even when the effective query trims to the empty string, a
successful store search still has its result recorded in `retrieved_docs`
with a `retrieval_score`, and `error` stays absent. -/
theorem empty_query_processed_normally (docs : List Document) (k : Nat)
    (s : AgentState) (hq : (effQuery s).toList.all Char.isWhitespace = true)
    (he : s.error = none) :
    (retrieve_node (fun _ _ => .ok docs) k none s).error = none ∧
    (retrieve_node (fun _ _ => .ok docs) k none s).retrieved_docs = some docs ∧
    (retrieve_node (fun _ _ => .ok docs) k none s).retrieval_score.isSome = true := by
  exact ⟨by simpa [retrieve_node] using he, rfl, rfl⟩

/-- C9 witness: the amended behaviour at a whitespace-only question. -/
theorem empty_query_processed_normally_witness :
    (effQuery { question := "   " }).toList.all Char.isWhitespace = true ∧
    ((retrieve_node (fun _ _ => .ok [{ page_content := "d" }]) 4 none
        { question := "   " }).error = none ∧
    (retrieve_node (fun _ _ => .ok [{ page_content := "d" }]) 4 none
        { question := "   " }).retrieved_docs = some [{ page_content := "d" }] ∧
    (retrieve_node (fun _ _ => .ok [{ page_content := "d" }]) 4 none
        { question := "   " }).retrieval_score.isSome = true) :=
  ⟨by decide,
    empty_query_processed_normally [{ page_content := "d" }] 4 { question := "   " }
      (by decide) rfl⟩

lemma getLast_add_to_history (cap : Nat) (h : List (String × String)) (q a : String)
    (hcap : 1 ≤ cap) : (add_to_history cap h q a).getLast? = some (q, a) := by
  simp only [add_to_history]
  split
  · next hlt =>
      cases h with
      | nil => simp at hlt; omega
      | cons x t => simp [List.getLast?_concat]
  · simp [List.getLast?_concat]

/-- C10: when the store returns no documents, the conversational chain still
appends the completed turn `(question, fixed fallback answer)` to the
history — in both the blocking and the streaming query — so memory is
mutated on this path even though no LLM call is made. -/
theorem empty_retrieval_appends_history (store : String → Nat → List Document)
    (gen : String → String) (stream_gen : String → List String) (tmpl : String)
    (cap : Nat) (hist : List (String × String)) (q : String) (k : Nat)
    (hempty : store q k = []) (hcap : 1 ≤ cap) :
    (conv_query store gen tmpl cap hist q k).2 = add_to_history cap hist q conv_fallback ∧
    (conv_stream_query store stream_gen tmpl cap hist q k).2
      = add_to_history cap hist q conv_fallback ∧
    (conv_query store gen tmpl cap hist q k).2.getLast? = some (q, conv_fallback) := by
  have h1 : (conv_query store gen tmpl cap hist q k).2
      = add_to_history cap hist q conv_fallback := by
    simp [conv_query, hempty]
  refine ⟨h1, by simp [conv_stream_query, hempty], ?_⟩
  rw [h1]
  exact getLast_add_to_history cap hist q conv_fallback hcap

/-- A store stub returning no documents for any query. -/
def emptyStore : String → Nat → List Document := fun _ _ => []

/-- C10 witness: the fallback turn recorded at concrete stubs. -/
theorem empty_retrieval_appends_history_witness :
    (conv_query emptyStore (fun _ => "AB") "T" 3 [] "q" 4).2
      = add_to_history 3 [] "q" conv_fallback ∧
    (conv_stream_query emptyStore (fun _ => ["A", "B"]) "T" 3 [] "q" 4).2
      = add_to_history 3 [] "q" conv_fallback ∧
    (conv_query emptyStore (fun _ => "AB") "T" 3 [] "q" 4).2.getLast?
      = some ("q", conv_fallback) :=
  empty_retrieval_appends_history emptyStore (fun _ => "AB") (fun _ => ["A", "B"]) "T" 3 []
    "q" 4 rfl (by decide)
